import Mathlib

/-!
Shallow embedding of `src/o3emuds.py`, the pluggable emulation-core layer of
the emuds repository: the Synthetic Core (`EmulatorCore`), the
Native-Delegating Core (`NoGbaCore`), the Backend Loader (`_load_library`),
and the RGB565 → RGB888 Pixel Converter (`NoGbaCore._pull_framebuffers.convert`).

Machine integers are modelled as `Nat` with explicit reduction `% 2^w` where
the C types (`c_uint32`, `c_uint16`) bound the values; the external shared
library is an opaque oracle (its replies at each call are free parameters),
the filesystem / dynamic loader is an explicit environment, and Python's
`random` module is an explicit stream of draws threaded through the state.
-/

namespace Emuds

/-- `FB_W, FB_H = 256, 192` (o3emuds.py line 39). -/
def FB_W : Nat := 256

/-- `FB_W, FB_H = 256, 192` (o3emuds.py line 39). -/
def FB_H : Nat := 192

/-- One 24-bit RGB pixel `(r, g, b)` as stored by `Image.putpixel`. -/
abbrev Color := Nat × Nat × Nat

/-- A framebuffer image: pixel at row `y`, column `x`. -/
abbrev Framebuffer := Nat → Nat → Color

/-- The `random` module, modelled as an infinite stream of raw draws;
the state records how many draws have been consumed (`rngPos`). -/
structure Rng where
  stream : Nat → Nat

/-- `random.randint(lo, hi)` — the draw at stream position `pos`,
reduced into the inclusive range `[lo, hi]`. -/
def randint (rng : Rng) (pos lo hi : Nat) : Nat :=
  lo + rng.stream pos % (hi - lo + 1)

/-- `random.choice(xs)` — picks one element of `xs` using the draw at `pos`. -/
def choice (rng : Rng) (pos : Nat) (xs : List Nat) : Nat :=
  xs.getD (rng.stream pos % xs.length) 0

/-- The Frame State owned by an `EmulatorCore` instance
(`EmulatorCore.__init__`, o3emuds.py lines 44-55), plus the position in the
random stream so that register synthesis is reproducible from the oracle. -/
structure CoreState where
  rom_path : Option String
  running : Bool
  _frame : Nat
  arm9 : List Nat
  arm7 : List Nat
  cpsr9 : Nat
  cpsr7 : Nat
  fb_top : Framebuffer
  fb_bot : Framebuffer
  rngPos : Nat

/-- `EmulatorCore.__init__` (lines 44-55): no ROM, not running, frame 0,
sixteen zeroed registers per CPU, CPSR `0x1F`, both screens black. -/
def initState : CoreState where
  rom_path := none
  running := false
  _frame := 0
  arm9 := List.replicate 16 0
  arm7 := List.replicate 16 0
  cpsr9 := 0x1F
  cpsr7 := 0x1F
  fb_top := fun _ _ => (0, 0, 0)
  fb_bot := fun _ _ => (0, 0, 0)
  rngPos := 0

/-- `EmulatorCore.load_rom` (lines 60-63): stores the path and returns True,
unconditionally — the stub performs no filesystem access at all. -/
def load_rom (s : CoreState) (path : String) : CoreState × Bool :=
  ({ s with rom_path := some path }, true)

/-- `EmulatorCore.reset` (lines 65-67). -/
def reset (s : CoreState) : CoreState :=
  { s with _frame := 0, running := false }

/-- `EmulatorCore._fake_registers` (lines 84-88): 16 + 16 independent
`randint(0, 0xFFFFFFFF)` draws, then two `random.choice([0x10, 0x1F, 0x13])`. -/
def fake_registers (rng : Rng) (s : CoreState) : CoreState :=
  { s with
    arm9 := (List.range 16).map fun i => randint rng (s.rngPos + i) 0 0xFFFFFFFF
    arm7 := (List.range 16).map fun i => randint rng (s.rngPos + 16 + i) 0 0xFFFFFFFF
    cpsr9 := choice rng (s.rngPos + 32) [0x10, 0x1F, 0x13]
    cpsr7 := choice rng (s.rngPos + 33) [0x10, 0x1F, 0x13]
    rngPos := s.rngPos + 34 }

/-- `c1 = (60 + 10 * (self._frame % 6), 50, 255)` (line 91). -/
def c1 (frame : Nat) : Color := (60 + 10 * (frame % 6), 50, 255)

/-- `c2 = (255, 60 + 7 * (self._frame % 8), 80)` (line 92). -/
def c2 (frame : Nat) : Color := (255, 60 + 7 * (frame % 8), 80)

/-- Top-screen pixel written by `_fake_framebuffers` (line 95):
`c1 if (y // 8) % 2 == 0 else (42, 54, 84)`. -/
def fake_fb_top (frame y _x : Nat) : Color :=
  if (y / 8) % 2 = 0 then c1 frame else (42, 54, 84)

/-- Bottom-screen pixel written by `_fake_framebuffers` (line 96):
`c2 if (y // 8) % 2 == 0 else (34, 34, 34)`. -/
def fake_fb_bot (frame y _x : Nat) : Color :=
  if (y / 8) % 2 = 0 then c2 frame else (34, 34, 34)

/-- `EmulatorCore._fake_framebuffers` (lines 90-96): overwrites every pixel of
both screens; the written colors depend only on `_frame` and the row `y`
(no `random` call, no clock read occurs in the source). -/
def fake_framebuffers (s : CoreState) : CoreState :=
  { s with
    fb_top := fun y x => fake_fb_top s._frame y x
    fb_bot := fun y x => fake_fb_bot s._frame y x }

/-- `EmulatorCore.run_frame` (lines 69-73): `_frame += 1`, then
`_fake_registers()`, then `_fake_framebuffers()`. -/
def run_frame (rng : Rng) (s : CoreState) : CoreState :=
  fake_framebuffers (fake_registers rng { s with _frame := s._frame + 1 })

/-- `EmulatorCore.get_registers` (lines 75-76): pure read. -/
def get_registers (s : CoreState) : List Nat × List Nat × Nat × Nat :=
  (s.arm9, s.arm7, s.cpsr9, s.cpsr7)

/-- `EmulatorCore.get_framebuffers` (lines 78-79): pure read. -/
def get_framebuffers (s : CoreState) : Framebuffer × Framebuffer :=
  (s.fb_top, s.fb_bot)

/-!
## The external no$gba shared library and the Backend Loader

The library is opaque to this layer:  we model a successfully bound module as
an oracle giving the `c_int` results of `nogba_init` / `nogba_load_rom` and the
buffer contents it writes on the `t`-th `run_frame` call.
-/

/-- An opaque bound shared library (the no$gba module).  `regs9 t i` /
`regs7 t i` are the 17 `c_uint32` words it writes into the register buffer on
the `t`-th frame, `fbt t i` / `fbb t i` the `c_uint16` packed pixels at linear
index `i` it writes into the two framebuffer pulls of the `t`-th frame. -/
structure Lib where
  init_result : Int
  load_result : String → Int
  regs9 : Nat → Nat → Nat
  regs7 : Nat → Nat → Nat
  fbt : Nat → Nat → Nat
  fbb : Nat → Nat → Nat

/-- Outcome of one `ctypes.CDLL(path)` attempt:  a bound library, an `OSError`
(missing / unloadable file — caught by `_load_library`), or some other raised
exception (not caught, so it propagates). -/
inductive DlOutcome where
  | lib (l : Lib)
  | oserror
  | otherError

/-- The host environment seen by `NoGbaCore._load_library` (lines 111-123):
the platform (`os.name == "nt"`), the directory of the running script
(`os.path.dirname(__file__)`), and what `ctypes.CDLL` does on each path. -/
structure OsEnv where
  isNt : Bool
  dirname : String
  cdll : String → DlOutcome

/-- The candidate list built at lines 112-116:  the bare platform-default
name, then the script-relative Windows name, then the script-relative Unix
name (`os.path.join` of a directory and a bare filename inserts a
separator). -/
def candidates (env : OsEnv) : List String :=
  [if env.isNt then "nogba.dll" else "libnogba.so",
   env.dirname ++ "/nogba.dll",
   env.dirname ++ "/libnogba.so"]

/-- The `for path in candidates: try ... except OSError: continue` loop of
lines 117-121:  returns the first successful binding; an `OSError` moves on to
the next candidate; any other exception propagates (`.error`). -/
def tryCandidates (env : OsEnv) : List String → Except Unit (Option Lib)
  | [] => .ok none
  | c :: rest =>
    match env.cdll c with
    | .lib l => .ok (some l)
    | .oserror => tryCandidates env rest
    | .otherError => .error ()

/-- `NoGbaCore._load_library` (lines 111-123):  on falling through every
candidate it prints a warning and returns `None` — it raises nothing. -/
def load_library (env : OsEnv) : Except Unit (Option Lib) :=
  tryCandidates env (candidates env)

/-!
## The Native-Delegating Core (`NoGbaCore`)
-/

/-- State of a `NoGbaCore` instance: the inherited Frame State, the handle
returned by `_load_library` (`self._lib`), and how many `nogba_run_frame`
calls have been forwarded so far (the index into the library oracle). -/
structure NoGbaState where
  core : CoreState
  _lib : Option Lib
  libCalls : Nat

/-- The Python-level error raised during `NoGbaCore.__init__`, or an
exception propagated out of `ctypes.CDLL`. -/
inductive InitErr where
  | runtimeError (msg : String)
  | propagated
deriving DecidableEq

/-- `NoGbaCore.__init__` (lines 102-108), with the partially-constructed
object made explicit:  `super().__init__()` builds the default Frame State,
`_load_library` binds (or not), and when a library is bound and
`nogba_init()` returns nonzero a `RuntimeError` is raised — the pair's second
component is the raised error, its first the object's state at that moment
(`_init_functions`, lines 125-134, only sets ctypes signatures and touches no
Frame State). -/
def nogbaNew (env : OsEnv) : NoGbaState × Option InitErr :=
  match load_library env with
  | .error _ => ({ core := initState, _lib := none, libCalls := 0 }, some .propagated)
  | .ok none => ({ core := initState, _lib := none, libCalls := 0 }, none)
  | .ok (some l) =>
    if l.init_result ≠ 0 then
      ({ core := initState, _lib := some l, libCalls := 0 },
       some (.runtimeError "no$gba: initialization failed"))
    else
      ({ core := initState, _lib := some l, libCalls := 0 }, none)

/-- `NoGbaCore.load_rom` (lines 138-144):  without a library, defer to the
stub; with one, forward the path and update `rom_path` only on a zero
result. -/
def nogba_load_rom (s : NoGbaState) (path : String) : NoGbaState × Bool :=
  match s._lib with
  | none =>
    let (c, b) := load_rom s.core path
    ({ s with core := c }, b)
  | some l =>
    if l.load_result path ≠ 0 then (s, false)
    else ({ s with core := { s.core with rom_path := some path } }, true)

/-- `NoGbaCore.reset` (lines 146-149):  `nogba_reset()` (a pure side effect on
the opaque module, invisible in this state) when bound, then
`super().reset()`. -/
def nogba_reset (s : NoGbaState) : NoGbaState :=
  { s with core := reset s.core }

/-- `NoGbaCore._pull_registers` (lines 162-169):  the library fills a
17-word `c_uint32` buffer per CPU; `list(arr)[:16]` keeps the first 16 words
and slot 16 becomes the CPSR. -/
def pull_registers (l : Lib) (t : Nat) (s : CoreState) : CoreState :=
  { s with
    arm9 := (((List.range 17).map fun i => l.regs9 t i % 2 ^ 32).take 16)
    cpsr9 := l.regs9 t 16 % 2 ^ 32
    arm7 := (((List.range 17).map fun i => l.regs7 t i % 2 ^ 32).take 16)
    cpsr7 := l.regs7 t 16 % 2 ^ 32 }

/-- The RGB565 → RGB888 conversion applied to one packed pixel
(`convert`, lines 178-185):
`r = ((pix >> 11) & 0x1F) << 3`, `g = ((pix >> 5) & 0x3F) << 2`,
`b = (pix & 0x1F) << 3`. -/
def convertPixel (pix : Nat) : Color :=
  (((pix >>> 11) &&& 0x1F) <<< 3, ((pix >>> 5) &&& 0x3F) <<< 2, (pix &&& 0x1F) <<< 3)

/-- `NoGbaCore._pull_framebuffers` (lines 171-188):  the library fills two
`256 * 192`-entry `c_uint16` buffers; pixel `(x, y) = (i % FB_W, i // FB_W)`
of the image receives `convert` of entry `i`, so row `y`, column `x` holds the
conversion of linear entry `y * FB_W + x`. -/
def pull_framebuffers (l : Lib) (t : Nat) (s : CoreState) : CoreState :=
  { s with
    fb_top := fun y x => convertPixel (l.fbt t (y * FB_W + x) % 2 ^ 16)
    fb_bot := fun y x => convertPixel (l.fbb t (y * FB_W + x) % 2 ^ 16) }

/-- `NoGbaCore.run_frame` (lines 151-158):  without a library, defer to the
stub; with one, `nogba_run_frame()`, pull registers, pull framebuffers, then
`self._frame += 1`. -/
def nogba_run_frame (rng : Rng) (s : NoGbaState) : NoGbaState :=
  match s._lib with
  | none => { s with core := run_frame rng s.core }
  | some l =>
    { s with
      core :=
        let a := pull_registers l s.libCalls s.core
        let b := pull_framebuffers l s.libCalls a
        { b with _frame := b._frame + 1 }
      libCalls := s.libCalls + 1 }

/-!
## Operation sequences (for the claims quantifying over histories)
-/

/-- One call of the public mutating API (the pure reads `get_registers` /
`get_framebuffers` observe the state and are compared directly). -/
inductive Op where
  | load (path : String)
  | reset
  | runFrame

/-- Dispatch one operation on an `EmulatorCore`; the second component is the
returned value (`load_rom` returns a `Bool`, the others `None`). -/
def core_exec (rng : Rng) (s : CoreState) : Op → CoreState × Option Bool
  | .load p => let (s', b) := load_rom s p; (s', some b)
  | .reset => (reset s, none)
  | .runFrame => (run_frame rng s, none)

/-- Dispatch one operation on a `NoGbaCore`. -/
def nogba_exec (rng : Rng) (s : NoGbaState) : Op → NoGbaState × Option Bool
  | .load p => let (s', b) := nogba_load_rom s p; (s', some b)
  | .reset => (nogba_reset s, none)
  | .runFrame => (nogba_run_frame rng s, none)

/-- Run a sequence of operations on an `EmulatorCore`, collecting returns. -/
def core_run (rng : Rng) (s : CoreState) : List Op → CoreState × List (Option Bool)
  | [] => (s, [])
  | op :: ops =>
    let (s', r) := core_exec rng s op
    let (s'', rs) := core_run rng s' ops
    (s'', r :: rs)

/-- Run a sequence of operations on a `NoGbaCore`, collecting returns. -/
def nogba_run (rng : Rng) (s : NoGbaState) : List Op → NoGbaState × List (Option Bool)
  | [] => (s, [])
  | op :: ops =>
    let (s', r) := nogba_exec rng s op
    let (s'', rs) := nogba_run rng s' ops
    (s'', r :: rs)

/-- The states an `EmulatorCore` can be in:  freshly constructed, or reached
from a reachable state by one public mutating operation (the two `get`
operations are pure reads, line 75-79). -/
inductive CoreReachable (rng : Rng) : CoreState → Prop
  | init : CoreReachable rng initState
  | load (p : String) {s} : CoreReachable rng s → CoreReachable rng (load_rom s p).1
  | reset {s} : CoreReachable rng s → CoreReachable rng (reset s)
  | step {s} : CoreReachable rng s → CoreReachable rng (run_frame rng s)

/-- The states a `NoGbaCore` object can be in:  as left by `__init__`
(whether or not it raised — the partially-constructed object is included), or
reached by one public mutating operation. -/
inductive NoGbaReachable (rng : Rng) : NoGbaState → Prop
  | new (env : OsEnv) : NoGbaReachable rng (nogbaNew env).1
  | load (p : String) {s} : NoGbaReachable rng s → NoGbaReachable rng (nogba_load_rom s p).1
  | reset {s} : NoGbaReachable rng s → NoGbaReachable rng (nogba_reset s)
  | step {s} : NoGbaReachable rng s → NoGbaReachable rng (nogba_run_frame rng s)

/-- Concrete random stream used to instantiate universally quantified
oracles in sanity checks. -/
def rng0 : Rng := ⟨fun n => n⟩

/-!
## Basic frame-counter lemmas
-/

lemma fake_registers_frame (rng : Rng) (s : CoreState) :
    (fake_registers rng s)._frame = s._frame := rfl

lemma fake_framebuffers_frame (s : CoreState) :
    (fake_framebuffers s)._frame = s._frame := rfl

lemma run_frame_frame (rng : Rng) (s : CoreState) :
    (run_frame rng s)._frame = s._frame + 1 := rfl

lemma pull_registers_frame (l : Lib) (t : Nat) (s : CoreState) :
    (pull_registers l t s)._frame = s._frame := rfl

lemma pull_framebuffers_frame (l : Lib) (t : Nat) (s : CoreState) :
    (pull_framebuffers l t s)._frame = s._frame := rfl

lemma nogba_run_frame_frame (rng : Rng) (s : NoGbaState) :
    (nogba_run_frame rng s).core._frame = s.core._frame + 1 := by
  cases h : s._lib <;>
    simp [nogba_run_frame, h, run_frame_frame, pull_registers_frame, pull_framebuffers_frame]

lemma run_frame_iterate_frame (rng : Rng) (N : Nat) (s : CoreState) :
    ((run_frame rng)^[N] s)._frame = s._frame + N := by
  induction N with
  | zero => rfl
  | succ n ih => rw [Function.iterate_succ_apply', run_frame_frame, ih]; ring

lemma nogba_run_frame_iterate_frame (rng : Rng) (N : Nat) (s : NoGbaState) :
    ((nogba_run_frame rng)^[N] s).core._frame = s.core._frame + N := by
  induction N with
  | zero => rfl
  | succ n ih => rw [Function.iterate_succ_apply', nogba_run_frame_frame, ih]; ring

/-- C1.  For every N ≥ 0, starting from a Core state on which `reset()` has
just been called, performing `run_frame` N times leaves `_frame` equal to
exactly N, and each single call to `run_frame` increases `_frame` by exactly
1 — for the Synthetic Core and for the Native-Delegating Core alike. -/
theorem frame_counter_counts_steps :
    (∀ (rng : Rng) (s : CoreState), (run_frame rng s)._frame = s._frame + 1) ∧
    (∀ (rng : Rng) (s : CoreState) (N : Nat),
      ((run_frame rng)^[N] (reset s))._frame = N) ∧
    (∀ (rng : Rng) (s : NoGbaState),
      (nogba_run_frame rng s).core._frame = s.core._frame + 1) ∧
    (∀ (rng : Rng) (s : NoGbaState) (N : Nat),
      ((nogba_run_frame rng)^[N] (nogba_reset s)).core._frame = N) := by
  refine ⟨run_frame_frame, fun rng s N => ?_, nogba_run_frame_frame, fun rng s N => ?_⟩
  · rw [run_frame_iterate_frame]; simp [reset]
  · rw [nogba_run_frame_iterate_frame]; simp [nogba_reset, reset]

/-- C7.  From any Core state whose `rom_path` is set, `reset()` zeroes
`_frame`, clears `running`, and leaves `rom_path` untouched — on both
variants. -/
theorem reset_preserves_rom_path :
    (∀ (s : CoreState) (p : String), s.rom_path = some p →
      (reset s)._frame = 0 ∧ (reset s).running = false ∧ (reset s).rom_path = some p) ∧
    (∀ (s : NoGbaState) (p : String), s.core.rom_path = some p →
      (nogba_reset s).core._frame = 0 ∧ (nogba_reset s).core.running = false ∧
        (nogba_reset s).core.rom_path = some p) := by
  exact ⟨fun s p h => ⟨rfl, rfl, h⟩, fun s p h => ⟨rfl, rfl, h⟩⟩

/-- Witness for C7: load a ROM into a fresh Synthetic Core, then reset. -/
theorem reset_preserves_rom_path_witness :
    (reset (load_rom initState "game.nds").1)._frame = 0 ∧
      (reset (load_rom initState "game.nds").1).running = false ∧
      (reset (load_rom initState "game.nds").1).rom_path = some "game.nds" :=
  reset_preserves_rom_path.1 (load_rom initState "game.nds").1 "game.nds" rfl

/-- C4.  Synthetic framebuffer generation is a deterministic function of
`_frame` alone:  if two states agree on `_frame` — whatever their random
stream position, registers, or previous screen contents — then
`_fake_framebuffers` produces pixel-for-pixel identical top and bottom
screens on both. -/
theorem fake_framebuffers_deterministic (s t : CoreState) (h : s._frame = t._frame) :
    ∀ y x, (fake_framebuffers s).fb_top y x = (fake_framebuffers t).fb_top y x ∧
      (fake_framebuffers s).fb_bot y x = (fake_framebuffers t).fb_bot y x := by
  intro y x
  constructor <;> simp only [fake_framebuffers, h]

/-- A Synthetic Core state at frame 5 with fresh random position. -/
def stateA : CoreState := { initState with _frame := 5 }

/-- A Synthetic Core state at frame 5 whose random position, running flag and
previous top screen all differ from `stateA`. -/
def stateB : CoreState :=
  { initState with
    _frame := 5
    rngPos := 99
    running := true
    fb_top := fun _ _ => (1, 2, 3) }

/-- Witness for C4: two states with frame 5 but different random positions,
running flags and screens generate the same pixels, sampled in an even band
(row 0) and an odd band (row 9). -/
theorem fake_framebuffers_deterministic_witness :
    (fake_framebuffers stateA).fb_top 0 0 = (fake_framebuffers stateB).fb_top 0 0 ∧
    (fake_framebuffers stateA).fb_bot 9 7 = (fake_framebuffers stateB).fb_bot 9 7 :=
  ⟨(fake_framebuffers_deterministic stateA stateB rfl 0 0).1,
   (fake_framebuffers_deterministic stateA stateB rfl 9 7).2⟩

/-- C5.  When every candidate location raises `OSError` (no shared module
exists anywhere), `_load_library` returns `None` and raises nothing. -/
theorem load_library_absent_returns_none (env : OsEnv)
    (h : ∀ c ∈ candidates env, env.cdll c = .oserror) :
    load_library env = .ok none := by
  have h1 := h _ (List.mem_cons_self ..)
  have h2 := h _ (List.mem_cons_of_mem _ (List.mem_cons_self ..))
  have h3 := h _ (List.mem_cons_of_mem _ (List.mem_cons_of_mem _ (List.mem_cons_self ..)))
  simp [load_library, tryCandidates, h1, h2, h3]

/-- An environment in which no candidate shared module exists:  every
`ctypes.CDLL` attempt raises `OSError`. -/
def envAbsent : OsEnv := { isNt := false, dirname := ".", cdll := fun _ => .oserror }

/-- Witness for C5 on the concrete module-free environment. -/
theorem load_library_absent_returns_none_witness :
    load_library envAbsent = .ok none :=
  load_library_absent_returns_none envAbsent fun _ _ => rfl

/-- A library whose `nogba_init` reports failure (returns 1); the rest of the
oracle is arbitrary. -/
def libBad : Lib :=
  { init_result := 1
    load_result := fun _ => 0
    regs9 := fun _ _ => 0
    regs7 := fun _ _ => 0
    fbt := fun _ _ => 0
    fbb := fun _ _ => 0 }

/-- An environment whose very first candidate binds `libBad`. -/
def envBad : OsEnv := { isNt := false, dirname := ".", cdll := fun _ => .lib libBad }

/-- C8.  If the bound module's `nogba_init` returns a nonzero result,
`NoGbaCore.__init__` raises `RuntimeError` (propagated to the caller), and the
object's Frame State at that moment is exactly the default-constructed one —
no step, load or register/framebuffer refresh has happened. -/
theorem nogba_init_failure_aborts_construction (env : OsEnv) (l : Lib)
    (h1 : load_library env = .ok (some l)) (h2 : l.init_result ≠ 0) :
    nogbaNew env =
      ({ core := initState, _lib := some l, libCalls := 0 },
       some (.runtimeError "no$gba: initialization failed")) := by
  simp [nogbaNew, h1, h2]

/-- Witness for C8 on the concrete failing library. -/
theorem nogba_init_failure_aborts_construction_witness :
    nogbaNew envBad =
      ({ core := initState, _lib := some libBad, libCalls := 0 },
       some (.runtimeError "no$gba: initialization failed")) :=
  nogba_init_failure_aborts_construction envBad libBad rfl (by decide)

/-!
## Pixel Converter (C2)
-/

lemma mask31_testBit (i : Nat) (h : i < 5) : Nat.testBit 31 i = true := by
  interval_cases i <;> decide

lemma mask63_testBit (i : Nat) (h : i < 6) : Nat.testBit 63 i = true := by
  interval_cases i <;> decide

/-- C2.  For every 16-bit packed pixel `p`, `convert` produces exactly
`(((p >> 11) & 0x1F) << 3, ((p >> 5) & 0x3F) << 2, (p & 0x1F) << 3)`;
bit `3 + i` of red equals bit `11 + i` of `p` (i < 5), bit `2 + i` of green
equals bit `5 + i` of `p` (i < 6), bit `3 + i` of blue equals bit `i` of `p`
(i < 5); and the low 3 bits of red and blue and the low 2 bits of green are
zero. -/
theorem convertPixel_fields (p : Nat) (_hp : p < 2 ^ 16) :
    convertPixel p =
      (((p >>> 11) &&& 0x1F) <<< 3, ((p >>> 5) &&& 0x3F) <<< 2, (p &&& 0x1F) <<< 3) ∧
    (∀ i < 5, (convertPixel p).1.testBit (3 + i) = p.testBit (11 + i)) ∧
    (∀ i < 6, (convertPixel p).2.1.testBit (2 + i) = p.testBit (5 + i)) ∧
    (∀ i < 5, (convertPixel p).2.2.testBit (3 + i) = p.testBit i) ∧
    (convertPixel p).1 % 8 = 0 ∧ (convertPixel p).2.1 % 4 = 0 ∧
    (convertPixel p).2.2 % 8 = 0 := by
  refine ⟨rfl, fun i hi => ?_, fun i hi => ?_, fun i hi => ?_, ?_, ?_, ?_⟩
  · show (((p >>> 11) &&& 0x1F) <<< 3).testBit (3 + i) = _
    rw [Nat.testBit_shiftLeft]
    simp [Nat.testBit_and, Nat.testBit_shiftRight, mask31_testBit i hi, Nat.le_add_right]
  · show (((p >>> 5) &&& 0x3F) <<< 2).testBit (2 + i) = _
    rw [Nat.testBit_shiftLeft]
    simp [Nat.testBit_and, Nat.testBit_shiftRight, mask63_testBit i hi, Nat.le_add_right]
  · show ((p &&& 0x1F) <<< 3).testBit (3 + i) = _
    rw [Nat.testBit_shiftLeft]
    simp [Nat.testBit_and, mask31_testBit i hi, Nat.le_add_right]
  · show ((p >>> 11) &&& 0x1F) <<< 3 % 8 = 0
    rw [Nat.shiftLeft_eq]; simp [Nat.mul_mod_left]
  · show ((p >>> 5) &&& 0x3F) <<< 2 % 4 = 0
    rw [Nat.shiftLeft_eq]; simp [Nat.mul_mod_left]
  · show (p &&& 0x1F) <<< 3 % 8 = 0
    rw [Nat.shiftLeft_eq]; simp [Nat.mul_mod_left]

/-- Witness for C2 at the packed pixel `0xABCD`. -/
theorem convertPixel_fields_witness :
    convertPixel 0xABCD =
      (((0xABCD >>> 11) &&& 0x1F) <<< 3, ((0xABCD >>> 5) &&& 0x3F) <<< 2,
        (0xABCD &&& 0x1F) <<< 3) ∧
    (∀ i < 5, (convertPixel 0xABCD).1.testBit (3 + i) = (0xABCD : Nat).testBit (11 + i)) ∧
    (∀ i < 6, (convertPixel 0xABCD).2.1.testBit (2 + i) = (0xABCD : Nat).testBit (5 + i)) ∧
    (∀ i < 5, (convertPixel 0xABCD).2.2.testBit (3 + i) = (0xABCD : Nat).testBit i) ∧
    (convertPixel 0xABCD).1 % 8 = 0 ∧ (convertPixel 0xABCD).2.1 % 4 = 0 ∧
    (convertPixel 0xABCD).2.2 % 8 = 0 :=
  convertPixel_fields 0xABCD (by decide)

/-!
## Register-array length invariant (C9)
-/

lemma nogbaNew_core (env : OsEnv) : (nogbaNew env).1.core = initState := by
  unfold nogbaNew
  rcases load_library env with e | o
  · rfl
  · rcases o with _ | l
    · rfl
    · dsimp only
      split <;> rfl

/-- C9.  Every reachable state of either Core variant — from construction
through any sequence of `load_rom`, `reset` and `run_frame` calls (the two
`get` operations are pure reads) — has general-purpose register arrays of
length exactly 16 for both CPUs. -/
theorem register_arrays_always_length_16 (rng : Rng) :
    (∀ s, CoreReachable rng s → s.arm9.length = 16 ∧ s.arm7.length = 16) ∧
    (∀ s, NoGbaReachable rng s → s.core.arm9.length = 16 ∧ s.core.arm7.length = 16) := by
  constructor
  · intro s h
    induction h with
    | init => exact ⟨by simp [initState], by simp [initState]⟩
    | load p h ih => exact ih
    | reset h ih => exact ih
    | step h ih =>
      constructor <;> simp [run_frame, fake_framebuffers, fake_registers]
  · intro s h
    induction h with
    | new env => rw [nogbaNew_core]; exact ⟨by simp [initState], by simp [initState]⟩
    | load p h ih =>
      rename_i t
      rcases hl : t._lib with _ | l
      · simpa [nogba_load_rom, hl, load_rom] using ih
      · by_cases hr : l.load_result p ≠ 0
        · simpa [nogba_load_rom, hl, hr] using ih
        · simpa [nogba_load_rom, hl, hr] using ih
    | reset h ih => exact ih
    | step h ih =>
      rename_i t
      rcases hl : t._lib with _ | l
      · constructor <;>
          simp [nogba_run_frame, hl, run_frame, fake_framebuffers, fake_registers]
      · constructor <;>
          simp [nogba_run_frame, hl, pull_framebuffers, pull_registers]

/-- Witness for C9: the freshly constructed Synthetic Core. -/
theorem register_arrays_always_length_16_witness :
    initState.arm9.length = 16 ∧ initState.arm7.length = 16 :=
  (register_arrays_always_length_16 rng0).1 initState CoreReachable.init

/-!
## Synthetic banding pattern (C6)

The even 8-row bands carry the frame-dependent colors `c1` / `c2`, but the odd
bands carry the fixed colors `(42, 54, 84)` / `(34, 34, 34)` — only one of the
two alternating colors depends on the frame counter.
-/

/-- C6 counterexample.  Row 8 lies in an odd band; its color is `(42, 54, 84)`
on the top screen (and `(34, 34, 34)` on the bottom) at every frame counter
value, so there exist no two frame counter values at which the second band
color differs — contradicting the claim that both alternating colors depend
on `frameCounter`. -/
theorem banding_second_color_never_varies :
    fake_fb_top 0 8 0 = (42, 54, 84) ∧
    (¬ ∃ f g : Nat, fake_fb_top f 8 0 ≠ fake_fb_top g 8 0) ∧
    fake_fb_bot 0 8 0 = (34, 34, 34) ∧
    (¬ ∃ f g : Nat, fake_fb_bot f 8 0 ≠ fake_fb_bot g 8 0) := by
  refine ⟨rfl, ?_, rfl, ?_⟩ <;> · rintro ⟨f, g, h⟩; exact h rfl

lemma c1_ne_fixed (f : Nat) : c1 f ≠ (42, 54, 84) := by
  simp [c1, Prod.ext_iff]

lemma c2_ne_fixed (f : Nat) : c2 f ≠ (34, 34, 34) := by
  simp [c2, Prod.ext_iff]

lemma band_row_div (y : Nat) : 8 * (y / 8) / 8 = y / 8 := by omega

lemma band_row_succ (y : Nat) : (y + 8) / 8 = y / 8 + 1 := by omega

/-- C6 amended.  Every synthesized framebuffer is the horizontal-banding
pattern of `fake_fb_top` / `fake_fb_bot`: each pixel carries one of exactly
two colors, rows are constant within each 8-row band, the color flips between
vertically adjacent bands, the even-band color varies with the frame counter —
but the odd-band color is the same at every frame counter value. -/
theorem banding_pattern_amended :
    (∀ s y x, (fake_framebuffers s).fb_top y x = fake_fb_top s._frame y x ∧
      (fake_framebuffers s).fb_bot y x = fake_fb_bot s._frame y x) ∧
    (∀ f y x, fake_fb_top f y x = c1 f ∨ fake_fb_top f y x = (42, 54, 84)) ∧
    (∀ f y x, fake_fb_bot f y x = c2 f ∨ fake_fb_bot f y x = (34, 34, 34)) ∧
    (∀ f y x, fake_fb_top f (8 * (y / 8)) x = fake_fb_top f y x ∧
      fake_fb_bot f (8 * (y / 8)) x = fake_fb_bot f y x) ∧
    (∀ f y x, fake_fb_top f (y + 8) x ≠ fake_fb_top f y x ∧
      fake_fb_bot f (y + 8) x ≠ fake_fb_bot f y x) ∧
    (fake_fb_top 0 0 0 ≠ fake_fb_top 1 0 0 ∧ fake_fb_bot 0 0 0 ≠ fake_fb_bot 1 0 0) ∧
    (∀ f g x, fake_fb_top f 8 x = fake_fb_top g 8 x ∧
      fake_fb_bot f 8 x = fake_fb_bot g 8 x) := by
  refine ⟨fun s y x => ⟨rfl, rfl⟩, fun f y x => ?_, fun f y x => ?_,
    fun f y x => ?_, fun f y x => ?_, ⟨by decide, by decide⟩, fun f g x => ⟨rfl, rfl⟩⟩
  · unfold fake_fb_top; split <;> simp
  · unfold fake_fb_bot; split <;> simp
  · unfold fake_fb_top fake_fb_bot
    rw [band_row_div]
    exact ⟨rfl, rfl⟩
  · unfold fake_fb_top fake_fb_bot
    rw [band_row_succ]
    have hm : (y / 8 + 1) % 2 = 0 ↔ ¬ (y / 8) % 2 = 0 := by omega
    by_cases h : (y / 8) % 2 = 0
    · have h' : ¬ (y / 8 + 1) % 2 = 0 := by omega
      simp only [h, h', if_true, if_false, if_pos, if_neg, not_false_iff]
      exact ⟨fun he => c1_ne_fixed f he.symm, fun he => c2_ne_fixed f he.symm⟩
    · have h' : (y / 8 + 1) % 2 = 0 := by omega
      simp only [h, h', if_true, if_false, if_pos, if_neg, not_false_iff]
      exact ⟨c1_ne_fixed f, c2_ne_fixed f⟩

/-!
## `load_rom` and unreadable paths (C3)

`EmulatorCore.load_rom` performs no filesystem access at all (lines 60-63): it
stores the path and returns `True` for every path, readable or not.  Only the
bound-library path of `NoGbaCore.load_rom` can fail.
-/

/-- C3 counterexample.  On the Synthetic Core, `load_rom` applied to a path
that references no file at all returns `True` and overwrites `rom_path`
(previously `None`) — not `False` with `rom_path` unchanged as claimed.  The
definition of `load_rom` consults nothing but its argument, so the same holds
at every unreadable path. -/
theorem load_rom_unreadable_succeeds :
    (load_rom initState "/nonexistent/rom.nds").2 = true ∧
    (load_rom initState "/nonexistent/rom.nds").1.rom_path = some "/nonexistent/rom.nds" ∧
    initState.rom_path = none :=
  ⟨rfl, rfl, rfl⟩

/-- C3 amended.  The Synthetic Core's `load_rom` (and the unbound
Native-Delegating Core's, which defers to it) stores the path and returns
`True` unconditionally, regardless of readability; only the
Native-Delegating Core with a bound library reports failure — exactly when
the library's `nogba_load_rom` returns nonzero, and then it leaves the whole
state, `rom_path` included, unchanged; on a zero result it returns `True`
and stores the path. -/
theorem load_rom_amended :
    (∀ s p, load_rom s p = ({ s with rom_path := some p }, true)) ∧
    (∀ (s : NoGbaState) p, s._lib = none →
      (nogba_load_rom s p).2 = true ∧ (nogba_load_rom s p).1.core.rom_path = some p) ∧
    (∀ (s : NoGbaState) l p, s._lib = some l →
      ((nogba_load_rom s p).2 = false ↔ l.load_result p ≠ 0) ∧
      (l.load_result p ≠ 0 → (nogba_load_rom s p).1 = s) ∧
      (l.load_result p = 0 →
        (nogba_load_rom s p).2 = true ∧
        (nogba_load_rom s p).1 =
          { s with core := { s.core with rom_path := some p } })) := by
  refine ⟨fun s p => rfl, fun s p h => ?_, fun s l p h => ?_⟩
  · simp [nogba_load_rom, h, load_rom]
  · by_cases hr : l.load_result p ≠ 0
    · refine ⟨?_, fun _ => ?_, fun hz => absurd hz hr⟩ <;> simp [nogba_load_rom, h, hr]
    · refine ⟨?_, fun hne => absurd hne hr, fun _ => ⟨?_, ?_⟩⟩ <;>
        simp [nogba_load_rom, h, not_not.mp hr]

/-- A library that rejects every ROM: `nogba_load_rom` returns 1. -/
def libRejects : Lib :=
  { init_result := 0
    load_result := fun _ => 1
    regs9 := fun _ _ => 0
    regs7 := fun _ _ => 0
    fbt := fun _ _ => 0
    fbb := fun _ _ => 0 }

/-- A `NoGbaCore` state bound to `libRejects`. -/
def stateRejects : NoGbaState := { core := initState, _lib := some libRejects, libCalls := 0 }

/-- A library that accepts every ROM: `nogba_load_rom` returns 0. -/
def libAccepts : Lib :=
  { init_result := 0
    load_result := fun _ => 0
    regs9 := fun _ _ => 0
    regs7 := fun _ _ => 0
    fbt := fun _ _ => 0
    fbb := fun _ _ => 0 }

/-- A `NoGbaCore` state bound to `libAccepts`. -/
def stateAccepts : NoGbaState := { core := initState, _lib := some libAccepts, libCalls := 0 }

/-- Witness for the amended C3: the bound-and-rejecting core fails and is
left unchanged; the bound-and-accepting core succeeds and stores the path. -/
theorem load_rom_amended_witness :
    (nogba_load_rom stateRejects "game.nds").2 = false ∧
    (nogba_load_rom stateRejects "game.nds").1 = stateRejects ∧
    (nogba_load_rom stateAccepts "game.nds").2 = true ∧
    (nogba_load_rom stateAccepts "game.nds").1.core.rom_path = some "game.nds" := by
  obtain ⟨hiff, hne, -⟩ := load_rom_amended.2.2 stateRejects libRejects "game.nds" rfl
  obtain ⟨-, -, hz⟩ := load_rom_amended.2.2 stateAccepts libAccepts "game.nds" rfl
  obtain ⟨hz1, hz2⟩ := hz rfl
  exact ⟨hiff.mpr (by decide), hne (by decide), hz1, by rw [hz2]⟩

/-!
## Stub-mode `NoGbaCore` is the Synthetic Core (C10)
-/

lemma nogba_exec_stub (rng : Rng) (s : NoGbaState) (h : s._lib = none) (op : Op) :
    (nogba_exec rng s op).1.core = (core_exec rng s.core op).1 ∧
    (nogba_exec rng s op).1._lib = none ∧
    (nogba_exec rng s op).2 = (core_exec rng s.core op).2 := by
  cases op <;>
    simp [nogba_exec, core_exec, nogba_load_rom, nogba_reset, nogba_run_frame, h, load_rom]

/-- C10.  A `NoGbaCore` whose library handle is `None` is observationally
equivalent to the Synthetic Core:  over every sequence of `load_rom`, `reset`
and `run_frame` calls (driven by the same random stream) the inherited Frame
State, the list of returned values, and the results of `get_registers` and
`get_framebuffers` all coincide with those of an `EmulatorCore` started from
the same state — every overridden operation delegates to the base
implementation when the handle is `None`. -/
theorem nogba_stub_equiv (rng : Rng) (ops : List Op) (s : NoGbaState)
    (h : s._lib = none) :
    (nogba_run rng s ops).1.core = (core_run rng s.core ops).1 ∧
    (nogba_run rng s ops).1._lib = none ∧
    (nogba_run rng s ops).2 = (core_run rng s.core ops).2 ∧
    get_registers (nogba_run rng s ops).1.core = get_registers (core_run rng s.core ops).1 ∧
    get_framebuffers (nogba_run rng s ops).1.core =
      get_framebuffers (core_run rng s.core ops).1 := by
  induction ops generalizing s with
  | nil => exact ⟨rfl, h, rfl, rfl, rfl⟩
  | cons op ops ih =>
    obtain ⟨h1, h2, h3⟩ := nogba_exec_stub rng s h op
    obtain ⟨i1, i2, i3, i4, i5⟩ := ih (nogba_exec rng s op).1 h2
    rw [h1] at i1 i3 i4 i5
    simp only [nogba_run, core_run]
    exact ⟨i1, i2, by rw [h3, i3], i4, i5⟩

/-- The state of a `NoGbaCore` constructed in the module-free environment. -/
def stubState : NoGbaState := (nogbaNew envAbsent).1

/-- A concrete four-call history exercising all three mutating operations. -/
def opsW : List Op := [.load "game.nds", .runFrame, .reset, .runFrame]

/-- Witness for C10: the stub-mode core and the Synthetic Core agree on the
concrete history `opsW`. -/
theorem nogba_stub_equiv_witness :
    (nogba_run rng0 stubState opsW).1.core = (core_run rng0 stubState.core opsW).1 ∧
    (nogba_run rng0 stubState opsW).1._lib = none ∧
    (nogba_run rng0 stubState opsW).2 = (core_run rng0 stubState.core opsW).2 ∧
    get_registers (nogba_run rng0 stubState opsW).1.core =
      get_registers (core_run rng0 stubState.core opsW).1 ∧
    get_framebuffers (nogba_run rng0 stubState opsW).1.core =
      get_framebuffers (core_run rng0 stubState.core opsW).1 :=
  nogba_stub_equiv rng0 opsW stubState rfl

end Emuds
